import Mathlib

/-!
Verification of the thermal process simulator and data logger of the
hot-state-system repository (src/src/core/simulator.py and
src/src/core/logger.py), shallowly embedded in Lean 4.

Python floats are modelled as rationals (the arithmetic involved is
addition, subtraction, min/max and comparison against decimal literals,
all exact on the values the claims mention).  Qt signal emissions are
modelled as an explicit list of events returned alongside the new state;
the QTimer of each component is modelled as a boolean `timer_active`
field, and a timer callback is modelled as a function that is the
identity (with no emissions) while the timer is inactive.  The random
noise drawn at the top of each tick is passed in as an explicit
parameter, as is the independent draw used by the MAINTAINING branch.
-/

/-- The `SystemState` enum of simulator.py, with its display labels. -/
inductive SystemState where
  | IDLE
  | HEATING
  | COOLING
  | MAINTAINING
  | EMERGENCY_STOP
deriving DecidableEq, Repr

/-- The `.value` of each enum member (the string payload in simulator.py). -/
def SystemState.value : SystemState → String
  | .IDLE => "Idle"
  | .HEATING => "Heating"
  | .COOLING => "Cooling"
  | .MAINTAINING => "Maintaining"
  | .EMERGENCY_STOP => "Emergency Stop"

/-- The numeric configuration fields of utils/config.py consumed by the
simulator and the logger. -/
structure Config where
  MIN_TEMP : ℚ
  MAX_TEMP : ℚ
  DEFAULT_TARGET_TEMP : ℚ
  TEMP_UPDATE_INTERVAL_MS : ℚ
  HEATING_RATE : ℚ
  COOLING_RATE : ℚ
  AMBIENT_TEMP : ℚ
  LOG_INTERVAL_MS : ℚ
deriving DecidableEq, Repr

/-- The default values of the `Config` dataclass in utils/config.py. -/
def defaultConfig : Config :=
  { MIN_TEMP := 0
    MAX_TEMP := 400
    DEFAULT_TARGET_TEMP := 100
    TEMP_UPDATE_INTERVAL_MS := 100
    HEATING_RATE := 2
    COOLING_RATE := 1
    AMBIENT_TEMP := 25
    LOG_INTERVAL_MS := 1000 }

/-- A Qt signal emission of TemperatureSimulator: either
`temperature_changed.emit(t)` or `state_changed.emit(s)`. -/
inductive Event where
  | temperature_changed (t : ℚ)
  | state_changed (s : SystemState)
deriving DecidableEq, Repr

/-- The mutable fields of `TemperatureSimulator`, plus the on/off status of
its QTimer. -/
structure Simulator where
  current_temp : ℚ
  target_temp : ℚ
  state : SystemState
  is_running : Bool
  timer_active : Bool
deriving DecidableEq, Repr

namespace Simulator

/-- `TemperatureSimulator.__init__`: ambient temperature, default target,
idle, not running, timer not started. -/
def init (cfg : Config) : Simulator :=
  { current_temp := cfg.AMBIENT_TEMP
    target_temp := cfg.DEFAULT_TARGET_TEMP
    state := SystemState.IDLE
    is_running := false
    timer_active := false }

/-- The `target_temp` property setter: clamp the value into
`[MIN_TEMP, MAX_TEMP]` via `max(MIN_TEMP, min(value, MAX_TEMP))` and store
it.  No signal is emitted and no other field is touched. -/
def set_target_temp (cfg : Config) (value : ℚ) (s : Simulator) : Simulator :=
  { s with target_temp := max cfg.MIN_TEMP (min value cfg.MAX_TEMP) }

/-- `TemperatureSimulator._update_state`: recompute the state from
`is_running`, `current_temp` and `target_temp`, and emit `state_changed`
unconditionally. -/
def update_state (cfg : Config) (s : Simulator) : Simulator × List Event :=
  let st :=
    if s.is_running = false then
      if s.current_temp > cfg.AMBIENT_TEMP + 1 then SystemState.COOLING
      else SystemState.IDLE
    else
      if |s.current_temp - s.target_temp| < 1/2 then SystemState.MAINTAINING
      else if s.current_temp < s.target_temp then SystemState.HEATING
      else SystemState.COOLING
  ({ s with state := st }, [Event.state_changed st])

/-- `TemperatureSimulator.start`: no-op when emergency-stopped; otherwise set
`is_running`, recompute the state (emitting), and start the tick timer. -/
def start (cfg : Config) (s : Simulator) : Simulator × List Event :=
  if s.state = SystemState.EMERGENCY_STOP then (s, [])
  else
    let p := update_state cfg { s with is_running := true }
    ({ p.1 with timer_active := true }, p.2)

/-- `TemperatureSimulator.stop`: clear `is_running`, force the state to
COOLING unconditionally and emit `state_changed`; the timer keeps its
status (ticking continues if it was running). -/
def stop (s : Simulator) : Simulator × List Event :=
  ({ s with is_running := false, state := SystemState.COOLING },
   [Event.state_changed SystemState.COOLING])

/-- `TemperatureSimulator.emergency_stop`: stop the timer, clear
`is_running`, force the state to EMERGENCY_STOP and emit `state_changed`
(unconditionally, even when already stopped). -/
def emergency_stop (s : Simulator) : Simulator × List Event :=
  ({ s with timer_active := false, is_running := false,
            state := SystemState.EMERGENCY_STOP },
   [Event.state_changed SystemState.EMERGENCY_STOP])

/-- `TemperatureSimulator.reset`: from EMERGENCY_STOP go to IDLE and emit;
otherwise do nothing and emit nothing. -/
def reset (s : Simulator) : Simulator × List Event :=
  if s.state = SystemState.EMERGENCY_STOP then
    ({ s with state := SystemState.IDLE },
     [Event.state_changed SystemState.IDLE])
  else (s, [])

/-- `TemperatureSimulator._update_temperature`, the timer callback body.
`noise` is the `random.uniform(-0.1, 0.1)` draw made at the top of the
callback; `noise2` is the independent `random.uniform(-0.3, 0.3)` draw made
inside the MAINTAINING branch.  The if/elif chain on the enum is rendered
as a match; the final clamp and the `temperature_changed` emission happen
on every call, and the `state_changed` emissions happen exactly where the
Python `emit` calls sit inside the branches (hence before the final
`temperature_changed` emission). -/
def update_temperature (cfg : Config) (noise noise2 : ℚ) (s : Simulator) :
    Simulator × List Event :=
  let dt := cfg.TEMP_UPDATE_INTERVAL_MS / 1000
  let p : Simulator × List Event :=
    match s.state with
    | SystemState.HEATING =>
        let diff := s.target_temp - s.current_temp
        if diff > 1/2 then
          ({ s with current_temp :=
               s.current_temp + cfg.HEATING_RATE * dt + noise }, [])
        else
          ({ s with state := SystemState.MAINTAINING },
           [Event.state_changed SystemState.MAINTAINING])
    | SystemState.MAINTAINING =>
        ({ s with current_temp := s.target_temp + noise2 }, [])
    | SystemState.COOLING =>
        if s.current_temp > cfg.AMBIENT_TEMP + 1/2 then
          ({ s with current_temp :=
               s.current_temp - (cfg.COOLING_RATE * dt + noise) }, [])
        else
          ({ s with current_temp := cfg.AMBIENT_TEMP,
                    state := SystemState.IDLE,
                    timer_active := false },
           [Event.state_changed SystemState.IDLE])
    | _ => (s, [])
  let s1 := p.1
  let clamped := max (cfg.AMBIENT_TEMP - 1) (min s1.current_temp cfg.MAX_TEMP)
  let s2 := { s1 with current_temp := clamped }
  (s2, p.2 ++ [Event.temperature_changed s2.current_temp])

/-- One firing opportunity of the QTimer: the callback runs only while the
timer is active; an inactive timer fires nothing. -/
def tick (cfg : Config) (noise noise2 : ℚ) (s : Simulator) :
    Simulator × List Event :=
  if s.timer_active then update_temperature cfg noise noise2 s else (s, [])

/-- Iterated ticks, one per (noise, noise2) pair, keeping only the state. -/
def ticks (cfg : Config) : List (ℚ × ℚ) → Simulator → Simulator
  | [], s => s
  | n :: ns, s => ticks cfg ns (tick cfg n.1 n.2 s).1

/-- The per-tick noise draw is in the closed interval `[-0.1, 0.1]`
(`random.uniform(-0.1, 0.1)`; both endpoints are attainable). -/
def noiseOk (n : ℚ) : Prop := -(1/10) ≤ n ∧ n ≤ 1/10

instance (n : ℚ) : Decidable (noiseOk n) := by
  unfold noiseOk; infer_instance

end Simulator

open Simulator

/-- C5: `reset()` is a no-op (state, temperatures, `is_running` unchanged,
no emission) unless the state is exactly EMERGENCY_STOP, in which case it
moves the state to IDLE and changes nothing else. -/
theorem C5_reset_only_from_emergency (s : Simulator) :
    (s.state ≠ SystemState.EMERGENCY_STOP → reset s = (s, [])) ∧
    (s.state = SystemState.EMERGENCY_STOP →
      (reset s).1.state = SystemState.IDLE ∧
      (reset s).1.current_temp = s.current_temp ∧
      (reset s).1.target_temp = s.target_temp ∧
      (reset s).1.is_running = s.is_running ∧
      (reset s).1.timer_active = s.timer_active ∧
      (reset s).2 = [Event.state_changed SystemState.IDLE]) := by
  constructor
  · intro h
    simp [reset, h]
  · intro h
    simp [reset, h]

/-- Witness for C5 at two concrete simulators, one idle and one
emergency-stopped. -/
theorem C5_reset_only_from_emergency_witness :
    reset ⟨30, 100, SystemState.IDLE, true, true⟩ =
      (⟨30, 100, SystemState.IDLE, true, true⟩, []) ∧
    (reset ⟨30, 100, SystemState.EMERGENCY_STOP, false, false⟩).1.state =
      SystemState.IDLE ∧
    (reset ⟨30, 100, SystemState.EMERGENCY_STOP, false, false⟩).1.current_temp
      = 30 := by
  refine ⟨?_, ?_, ?_⟩
  · exact (C5_reset_only_from_emergency
      ⟨30, 100, SystemState.IDLE, true, true⟩).1 (by decide)
  · exact ((C5_reset_only_from_emergency
      ⟨30, 100, SystemState.EMERGENCY_STOP, false, false⟩).2 rfl).1
  · exact ((C5_reset_only_from_emergency
      ⟨30, 100, SystemState.EMERGENCY_STOP, false, false⟩).2 rfl).2.1

/-- C6: `setTargetTemp(v)` stores `clamp(v, MIN_TEMP, MAX_TEMP)` in
`target_temp` and changes nothing else: `current_temp`, `state`,
`is_running` and the timer are untouched, and no transition (state change)
is triggered by the call. -/
theorem C6_set_target_clamps (cfg : Config) (v : ℚ) (s : Simulator) :
    (set_target_temp cfg v s).target_temp =
      max cfg.MIN_TEMP (min v cfg.MAX_TEMP) ∧
    (set_target_temp cfg v s).current_temp = s.current_temp ∧
    (set_target_temp cfg v s).state = s.state ∧
    (set_target_temp cfg v s).is_running = s.is_running ∧
    (set_target_temp cfg v s).timer_active = s.timer_active := by
  simp [set_target_temp]

/-! ## Data logger (src/src/core/logger.py)

File I/O is modelled at the row level: a CSV data row holds the timestamp
string, the two temperatures as the integer number of hundredths denoted by
the `%.2f`-formatted field (the string `"12.34"` is represented by the
integer 1234; decimal rendering of `n/100` with two forced decimals is a
bijection between integers and such strings, so nothing is lost), and the
state label string.  `datetime.now()` is modelled by passing the formatted
timestamp string in as a parameter. -/

/-- The mathematical content of Python's `f"{x:.2f}"`: the number of
hundredths written, i.e. `x` rounded to the nearest hundredth. -/
def fmt2 (x : ℚ) : ℤ := round (100 * x)

/-- A data row of the CSV file, as written by `DataLogger._log_data`. -/
structure LogRow where
  timestamp : String
  current_temp_c : ℤ
  target_temp_c : ℤ
  state_label : String
deriving DecidableEq, Repr

/-- The mutable fields of `DataLogger`, with its QTimer as a boolean, the
open file handle/csv writer as a boolean, and the current file's contents
as a header count plus data-row list.  `files_created` records every file
ever opened by `start_logging` (each `open(..., 'w')` call). -/
structure DataLogger where
  file : Option String
  writer_open : Bool
  is_logging : Bool
  timer_active : Bool
  current_temp : ℚ
  target_temp : ℚ
  state : SystemState
  files_created : List String
  header_count : ℕ
  rows : List LogRow
deriving DecidableEq, Repr

namespace DataLogger

/-- `DataLogger.__init__`: no file, not logging, snapshot `(0.0, 0.0, IDLE)`. -/
def init : DataLogger :=
  { file := none
    writer_open := false
    is_logging := false
    timer_active := false
    current_temp := 0
    target_temp := 0
    state := SystemState.IDLE
    files_created := []
    header_count := 0
    rows := [] }

/-- `DataLogger.start_logging`: no-op when already logging; otherwise build
the file name `log_<timestamp>.csv` from the current wall-clock timestamp
(passed in, already `strftime`-formatted), open that file fresh, write the
four-column header once, mark logging and start the periodic timer. -/
def start_logging (now : String) (L : DataLogger) : DataLogger :=
  if L.is_logging then L
  else
    let name := "log_" ++ now ++ ".csv"
    { L with
        file := some name
        writer_open := true
        is_logging := true
        timer_active := true
        files_created := L.files_created ++ [name]
        header_count := 1
        rows := [] }

/-- `DataLogger.stop_logging`: no-op when not logging; otherwise stop the
timer, clear the flag and close the file handle. -/
def stop_logging (L : DataLogger) : DataLogger :=
  if L.is_logging = false then L
  else { L with timer_active := false, is_logging := false, writer_open := false }

/-- `DataLogger.update_data`: overwrite the in-memory snapshot; no I/O. -/
def update_data (c t : ℚ) (st : SystemState) (L : DataLogger) : DataLogger :=
  { L with current_temp := c, target_temp := t, state := st }

/-- The row `DataLogger._log_data` writes from the current snapshot:
ISO timestamp, both temperatures `%.2f`-formatted, and the enum's `.value`
label. -/
def log_row (now : String) (L : DataLogger) : LogRow :=
  { timestamp := now
    current_temp_c := fmt2 L.current_temp
    target_temp_c := fmt2 L.target_temp
    state_label := L.state.value }

/-- `DataLogger._log_data`: return immediately when no csv writer is open;
otherwise append one snapshot row and flush. -/
def log_data (now : String) (L : DataLogger) : DataLogger :=
  if L.writer_open = false then L
  else { L with rows := L.rows ++ [log_row now L] }

/-- Iterated periodic writes, one per timestamp. -/
def log_writes : List String → DataLogger → DataLogger
  | [], L => L
  | t :: ts, L => log_writes ts (log_data t L)

end DataLogger

/-- Reading of a CSV `state` cell back into the enum, per the file-format
section of the spec: the five human-readable labels, nothing else. -/
def spec_parse_state (lbl : String) : Option SystemState :=
  if lbl = "Idle" then some SystemState.IDLE
  else if lbl = "Heating" then some SystemState.HEATING
  else if lbl = "Cooling" then some SystemState.COOLING
  else if lbl = "Maintaining" then some SystemState.MAINTAINING
  else if lbl = "Emergency Stop" then some SystemState.EMERGENCY_STOP
  else none

/-- Reading of a two-decimal temperature cell back as a rational: the cell
holding `n` hundredths denotes `n / 100`. -/
def spec_parse_temp (n : ℤ) : ℚ := (n : ℚ) / 100

/-- Evaluation rule for `fmt2` at concrete rationals. -/
theorem fmt2_spec (x : ℚ) (n : ℤ) (h1 : (n : ℚ) ≤ 100 * x + 1/2)
    (h2 : 100 * x + 1/2 < n + 1) : fmt2 x = n := by
  unfold fmt2
  rw [round_eq, Int.floor_eq_iff]
  exact ⟨h1, h2⟩

/-- C8: a second `start_logging()` call right after a first one is a
complete no-op; the first call creates exactly one new file, whose name is
the deterministic function `log_<timestamp>.csv` of the wall-clock
timestamp of the first call, and writes the header exactly once. -/
theorem C8_start_logging_twice (L : DataLogger) (t1 t2 : String)
    (h : L.is_logging = false) :
    DataLogger.start_logging t2 (DataLogger.start_logging t1 L) =
      DataLogger.start_logging t1 L ∧
    (DataLogger.start_logging t1 L).files_created =
      L.files_created ++ ["log_" ++ t1 ++ ".csv"] ∧
    (DataLogger.start_logging t1 L).header_count = 1 ∧
    (DataLogger.start_logging t1 L).rows = [] := by
  constructor
  · simp [DataLogger.start_logging, h]
  · simp [DataLogger.start_logging, h]

/-- Witness for C8: the fresh logger, started at two concrete timestamps. -/
theorem C8_start_logging_twice_witness :
    DataLogger.start_logging "20260115_102301"
        (DataLogger.start_logging "20260115_102300" DataLogger.init) =
      DataLogger.start_logging "20260115_102300" DataLogger.init ∧
    (DataLogger.start_logging "20260115_102300" DataLogger.init).files_created
      = ["log_20260115_102300.csv"] :=
  ⟨(C8_start_logging_twice DataLogger.init "20260115_102300" "20260115_102301"
      rfl).1,
   (C8_start_logging_twice DataLogger.init "20260115_102300" "20260115_102301"
      rfl).2.1⟩

/-- C9: the row the periodic write appends reproduces, when parsed back,
the snapshot's timestamp string and state exactly, and both temperatures
within half a hundredth (0.005). -/
theorem C9_log_row_roundtrip (L : DataLogger) (now : String)
    (h : L.writer_open = true) :
    (DataLogger.log_data now L).rows = L.rows ++ [DataLogger.log_row now L] ∧
    (DataLogger.log_row now L).timestamp = now ∧
    spec_parse_state (DataLogger.log_row now L).state_label = some L.state ∧
    |spec_parse_temp (DataLogger.log_row now L).current_temp_c -
        L.current_temp| ≤ 1/200 ∧
    |spec_parse_temp (DataLogger.log_row now L).target_temp_c -
        L.target_temp| ≤ 1/200 := by
  refine ⟨by simp [DataLogger.log_data, h], rfl, ?_, ?_, ?_⟩
  · cases hs : L.state <;> simp [DataLogger.log_row, SystemState.value,
      spec_parse_state, hs]
  · have h2 : |100 * L.current_temp - round (100 * L.current_temp)| ≤ 1/2 :=
      abs_sub_round (100 * L.current_temp)
    have h3 : spec_parse_temp (DataLogger.log_row now L).current_temp_c -
        L.current_temp =
        -((100 * L.current_temp - round (100 * L.current_temp)) / 100) := by
      simp [spec_parse_temp, DataLogger.log_row, fmt2]
      ring
    rw [h3, abs_neg, abs_div]
    rw [show |(100 : ℚ)| = 100 by norm_num]
    linarith
  · have h2 : |100 * L.target_temp - round (100 * L.target_temp)| ≤ 1/2 :=
      abs_sub_round (100 * L.target_temp)
    have h3 : spec_parse_temp (DataLogger.log_row now L).target_temp_c -
        L.target_temp =
        -((100 * L.target_temp - round (100 * L.target_temp)) / 100) := by
      simp [spec_parse_temp, DataLogger.log_row, fmt2]
      ring
    rw [h3, abs_neg, abs_div]
    rw [show |(100 : ℚ)| = 100 by norm_num]
    linarith

/-- Witness for C9 at a concrete snapshot whose temperature 99.998 rounds
to the written field 100.00. -/
theorem C9_log_row_roundtrip_witness :
    (DataLogger.log_data "2026-01-15T10:23:01.123456"
        ⟨some "log_x.csv", true, true, true, 49999/500, 100,
         SystemState.MAINTAINING, ["log_x.csv"], 1, []⟩).rows =
      [⟨"2026-01-15T10:23:01.123456", 10000, 10000, "Maintaining"⟩] ∧
    spec_parse_state "Maintaining" = some SystemState.MAINTAINING := by
  have h := C9_log_row_roundtrip
    ⟨some "log_x.csv", true, true, true, 49999/500, 100,
     SystemState.MAINTAINING, ["log_x.csv"], 1, []⟩
    "2026-01-15T10:23:01.123456" rfl
  have hf1 : fmt2 (49999/500 : ℚ) = 10000 :=
    fmt2_spec _ _ (by norm_num) (by norm_num)
  have hf2 : fmt2 (100 : ℚ) = 10000 :=
    fmt2_spec _ _ (by norm_num) (by norm_num)
  refine ⟨?_, ?_⟩
  · rw [h.1]
    simp [DataLogger.log_row, hf1, hf2, SystemState.value]
  · have h4 := h.2.2.1
    have h5 : (DataLogger.log_row "2026-01-15T10:23:01.123456"
        ⟨some "log_x.csv", true, true, true, 49999/500, 100,
         SystemState.MAINTAINING, ["log_x.csv"], 1, []⟩).state_label =
        "Maintaining" := rfl
    rw [h5] at h4
    exact h4

/-- C10: starting the fresh logger before any `update_data` call makes
every periodic write emit the built-in initial snapshot — hundredths 0
(the field "0.00") for both temperatures and the label "Idle". -/
theorem C10_initial_snapshot_rows (t : String) (ts : List String) :
    (DataLogger.log_writes ts
        (DataLogger.start_logging t DataLogger.init)).rows =
      ts.map (fun now => ⟨now, 0, 0, "Idle"⟩) := by
  have key : ∀ (us : List String) (M : DataLogger),
      M.writer_open = true → M.current_temp = 0 → M.target_temp = 0 →
      M.state = SystemState.IDLE →
      (DataLogger.log_writes us M).rows =
        M.rows ++ us.map (fun now => ⟨now, 0, 0, "Idle"⟩) := by
    intro us
    induction us with
    | nil => intro M _ _ _ _; simp [DataLogger.log_writes]
    | cons u us ih =>
      intro M hw hc ht hs
      have step : (DataLogger.log_data u M).rows =
          M.rows ++ [⟨u, 0, 0, "Idle"⟩] := by
        simp [DataLogger.log_data, hw, DataLogger.log_row, hc, ht, hs,
          fmt2, SystemState.value]
      have hw2 : (DataLogger.log_data u M).writer_open = true := by
        simp [DataLogger.log_data, hw]
      have hc2 : (DataLogger.log_data u M).current_temp = 0 := by
        simp [DataLogger.log_data, hw, hc]
      have ht2 : (DataLogger.log_data u M).target_temp = 0 := by
        simp [DataLogger.log_data, hw, ht]
      have hs2 : (DataLogger.log_data u M).state = SystemState.IDLE := by
        simp [DataLogger.log_data, hw, hs]
      simp only [DataLogger.log_writes]
      rw [ih _ hw2 hc2 ht2 hs2, step]
      simp
  rw [key ts (DataLogger.start_logging t DataLogger.init) rfl rfl rfl rfl]
  simp [DataLogger.start_logging, DataLogger.init]

/-! ## Simulator claims -/

/-- A stopped QTimer never fires: iterated ticks on a timer-inactive
simulator change nothing. -/
theorem ticks_timer_inactive (cfg : Config) (ns : List (ℚ × ℚ))
    (s : Simulator) (h : s.timer_active = false) : ticks cfg ns s = s := by
  induction ns with
  | nil => rfl
  | cons n ns ih => simp [ticks, tick, h, ih]

/-- C1: from any running state, `emergency_stop()` sets the state to
EMERGENCY_STOP, clears `is_running` and halts the timer; no subsequent tick
(and none after a further `reset()`, which does not restart the timer)
changes `current_temp`; and a repeated `emergency_stop()` leaves every
simulator field unchanged (idempotence). -/
theorem C1_emergency_stop_halts (cfg : Config) (s : Simulator)
    (h : s.is_running = true) :
    (emergency_stop s).1.state = SystemState.EMERGENCY_STOP ∧
    (emergency_stop s).1.is_running = false ∧
    (emergency_stop s).1.timer_active = false ∧
    (∀ ns, (ticks cfg ns (emergency_stop s).1).current_temp =
      s.current_temp) ∧
    (∀ ns, (ticks cfg ns (reset (emergency_stop s).1).1).current_temp =
      s.current_temp) ∧
    (emergency_stop (emergency_stop s).1).1 = (emergency_stop s).1 := by
  refine ⟨rfl, rfl, rfl, ?_, ?_, rfl⟩
  · intro ns
    rw [ticks_timer_inactive cfg ns _ rfl]
    rfl
  · intro ns
    rw [ticks_timer_inactive cfg ns _ (by simp [reset, emergency_stop])]
    simp [reset, emergency_stop]

/-- Witness for C1 at a concrete running heating simulator and two
concrete tick attempts. -/
theorem C1_emergency_stop_halts_witness :
    (emergency_stop ⟨150, 200, SystemState.HEATING, true, true⟩).1.state =
      SystemState.EMERGENCY_STOP ∧
    (ticks defaultConfig [(1/20, 0), (-(1/10), 0)]
        (emergency_stop ⟨150, 200, SystemState.HEATING, true, true⟩).1
      ).current_temp = 150 := by
  have h := C1_emergency_stop_halts defaultConfig
    ⟨150, 200, SystemState.HEATING, true, true⟩ rfl
  exact ⟨h.1, h.2.2.2.1 [(1/20, 0), (-(1/10), 0)]⟩

/-- C2 counterexample: a concrete Cooling tick (current 25.3, ambient 25)
in which both the temperature (25.3 to 25.0) and the state (Cooling to
Idle) change, yet the emissions of that tick are state-then-temperature,
never temperature-then-state. -/
theorem C2_counterexample :
    (tick defaultConfig 0 0
        ⟨253/10, 100, SystemState.COOLING, false, true⟩).1.current_temp ≠
      253/10 ∧
    (tick defaultConfig 0 0
        ⟨253/10, 100, SystemState.COOLING, false, true⟩).1.state ≠
      SystemState.COOLING ∧
    (tick defaultConfig 0 0
        ⟨253/10, 100, SystemState.COOLING, false, true⟩).2 =
      [Event.state_changed SystemState.IDLE,
       Event.temperature_changed 25] ∧
    ∀ t st, (tick defaultConfig 0 0
        ⟨253/10, 100, SystemState.COOLING, false, true⟩).2 ≠
      [Event.temperature_changed t, Event.state_changed st] := by
  have hstep : tick defaultConfig 0 0
      ⟨253/10, 100, SystemState.COOLING, false, true⟩ =
      (⟨25, 100, SystemState.IDLE, false, false⟩,
       [Event.state_changed SystemState.IDLE,
        Event.temperature_changed 25]) := by
    norm_num [tick, update_temperature, defaultConfig, min_def, max_def]
  refine ⟨?_, ?_, ?_, ?_⟩
  · rw [hstep]; norm_num
  · rw [hstep]; simp
  · rw [hstep]
  · intro t st
    rw [hstep]
    simp

/-- C2 amended: on every tick whose state differs from the previous one,
the emissions of that tick are exactly the `state_changed` notification
followed by the `temperature_changed` notification — state first, then
temperature. -/
theorem C2_amended_state_then_temperature (cfg : Config)
    (noise noise2 : ℚ) (s : Simulator)
    (h : (update_temperature cfg noise noise2 s).1.state ≠ s.state) :
    (update_temperature cfg noise noise2 s).2 =
      [Event.state_changed (update_temperature cfg noise noise2 s).1.state,
       Event.temperature_changed
         (update_temperature cfg noise noise2 s).1.current_temp] := by
  cases hs : s.state
  case IDLE => exact absurd (by simp only [update_temperature, hs]) h
  case HEATING =>
    by_cases hd : s.target_temp - s.current_temp > 1/2
    · refine absurd ?_ h
      simp only [update_temperature, hs]
      rw [if_pos hd]
    · simp only [update_temperature, hs]
      rw [if_neg hd]
      simp
  case COOLING =>
    by_cases hd : s.current_temp > cfg.AMBIENT_TEMP + 1/2
    · refine absurd ?_ h
      simp only [update_temperature, hs]
      rw [if_pos hd]
    · simp only [update_temperature, hs]
      rw [if_neg hd]
      simp
  case MAINTAINING => exact absurd (by simp only [update_temperature, hs]) h
  case EMERGENCY_STOP => exact absurd (by simp only [update_temperature, hs]) h

/-- Witness for C2's amended theorem: the Heating-to-Maintaining tick of a
concrete simulator emits state-then-temperature. -/
theorem C2_amended_state_then_temperature_witness :
    (update_temperature defaultConfig 0 0
        ⟨997/10, 100, SystemState.HEATING, true, true⟩).2 =
      [Event.state_changed SystemState.MAINTAINING,
       Event.temperature_changed (997/10)] := by
  have hne : (update_temperature defaultConfig 0 0
      ⟨997/10, 100, SystemState.HEATING, true, true⟩).1.state ≠
      SystemState.HEATING := by
    norm_num [update_temperature, defaultConfig]
    simp
  have h := C2_amended_state_then_temperature defaultConfig 0 0
    ⟨997/10, 100, SystemState.HEATING, true, true⟩ hne
  rw [h]
  norm_num [update_temperature, defaultConfig, min_def, max_def]

/-- C3 counterexample: in the Cooling state at 200 degrees (well above
`ambient + 0.5`), the tick whose noise draw is exactly -0.1 subtracts
`coolingRate * dt + noise = 0.1 - 0.1 = 0` and leaves `current_temp`
unchanged — the promised strict decrease fails at the noise boundary. -/
theorem C3_counterexample :
    noiseOk (-(1/10)) ∧
    (200 : ℚ) > defaultConfig.AMBIENT_TEMP + 1/2 ∧
    (tick defaultConfig (-(1/10)) 0
        ⟨200, 100, SystemState.COOLING, false, true⟩).1.current_temp =
      200 := by
  refine ⟨by norm_num [noiseOk], by norm_num [defaultConfig], ?_⟩
  norm_num [tick, update_temperature, defaultConfig, min_def, max_def]

/-- Heating branch of `_update_temperature` while the gap exceeds 0.5:
ramp up by `HEATING_RATE * dt + noise`, clamp, emit temperature only. -/
theorem update_temperature_heating_far (cfg : Config) (noise noise2 : ℚ)
    (s : Simulator) (hs : s.state = SystemState.HEATING)
    (hd : s.target_temp - s.current_temp > 1/2) :
    update_temperature cfg noise noise2 s =
      ({ s with current_temp := (max (cfg.AMBIENT_TEMP - 1)
           (min (s.current_temp +
             cfg.HEATING_RATE * (cfg.TEMP_UPDATE_INTERVAL_MS / 1000) + noise)
             cfg.MAX_TEMP)) },
       [Event.temperature_changed (max (cfg.AMBIENT_TEMP - 1)
           (min (s.current_temp +
             cfg.HEATING_RATE * (cfg.TEMP_UPDATE_INTERVAL_MS / 1000) + noise)
             cfg.MAX_TEMP))]) := by
  simp only [update_temperature, hs]
  rw [if_pos hd]
  rfl

/-- Heating branch of `_update_temperature` once the gap is at most 0.5:
transition to MAINTAINING, clamp the unchanged temperature, emit state then
temperature. -/
theorem update_temperature_heating_near (cfg : Config) (noise noise2 : ℚ)
    (s : Simulator) (hs : s.state = SystemState.HEATING)
    (hd : ¬ s.target_temp - s.current_temp > 1/2) :
    update_temperature cfg noise noise2 s =
      ({ s with state := SystemState.MAINTAINING,
                current_temp := (max (cfg.AMBIENT_TEMP - 1)
                  (min s.current_temp cfg.MAX_TEMP)) },
       [Event.state_changed SystemState.MAINTAINING,
        Event.temperature_changed (max (cfg.AMBIENT_TEMP - 1)
          (min s.current_temp cfg.MAX_TEMP))]) := by
  simp only [update_temperature, hs]
  rw [if_neg hd]
  simp

/-- Maintaining branch of `_update_temperature`: jump to
`target + noise2`, clamp, emit temperature only. -/
theorem update_temperature_maintaining (cfg : Config) (noise noise2 : ℚ)
    (s : Simulator) (hs : s.state = SystemState.MAINTAINING) :
    update_temperature cfg noise noise2 s =
      ({ s with current_temp := (max (cfg.AMBIENT_TEMP - 1)
           (min (s.target_temp + noise2) cfg.MAX_TEMP)) },
       [Event.temperature_changed (max (cfg.AMBIENT_TEMP - 1)
           (min (s.target_temp + noise2) cfg.MAX_TEMP))]) := by
  simp only [update_temperature, hs]
  rfl

/-- Cooling branch of `_update_temperature` while above `ambient + 0.5`:
ramp down by `COOLING_RATE * dt + noise`, clamp, emit temperature only. -/
theorem update_temperature_cooling_hot (cfg : Config) (noise noise2 : ℚ)
    (s : Simulator) (hs : s.state = SystemState.COOLING)
    (hd : s.current_temp > cfg.AMBIENT_TEMP + 1/2) :
    update_temperature cfg noise noise2 s =
      ({ s with current_temp := (max (cfg.AMBIENT_TEMP - 1)
           (min (s.current_temp -
             (cfg.COOLING_RATE * (cfg.TEMP_UPDATE_INTERVAL_MS / 1000) + noise))
             cfg.MAX_TEMP)) },
       [Event.temperature_changed (max (cfg.AMBIENT_TEMP - 1)
           (min (s.current_temp -
             (cfg.COOLING_RATE * (cfg.TEMP_UPDATE_INTERVAL_MS / 1000) + noise))
             cfg.MAX_TEMP))]) := by
  simp only [update_temperature, hs]
  rw [if_pos hd]
  rfl

/-- Cooling branch of `_update_temperature` once at or below
`ambient + 0.5`: snap to ambient, transition to IDLE, stop the timer, emit
state then temperature. -/
theorem update_temperature_cooling_snap (cfg : Config) (noise noise2 : ℚ)
    (s : Simulator) (hs : s.state = SystemState.COOLING)
    (hd : ¬ s.current_temp > cfg.AMBIENT_TEMP + 1/2) :
    update_temperature cfg noise noise2 s =
      ({ s with state := SystemState.IDLE, timer_active := false,
                current_temp := (max (cfg.AMBIENT_TEMP - 1)
                  (min cfg.AMBIENT_TEMP cfg.MAX_TEMP)) },
       [Event.state_changed SystemState.IDLE,
        Event.temperature_changed (max (cfg.AMBIENT_TEMP - 1)
          (min cfg.AMBIENT_TEMP cfg.MAX_TEMP))]) := by
  simp only [update_temperature, hs]
  rw [if_neg hd]
  simp

/-- Whether an emission is a `state_changed` notification. -/
def Event.isStateChanged : Event → Bool
  | .state_changed _ => true
  | _ => false

/-- C7 counterexample: with the state already Cooling, `stop()` leaves the
state unchanged yet still emits a `state_changed` notification — so
`state_changed` does not fire only on actual changes. -/
theorem C7_counterexample :
    (stop ⟨30, 100, SystemState.COOLING, true, true⟩).1.state =
      (⟨30, 100, SystemState.COOLING, true, true⟩ : Simulator).state ∧
    (stop ⟨30, 100, SystemState.COOLING, true, true⟩).2 =
      [Event.state_changed SystemState.COOLING] :=
  ⟨rfl, rfl⟩

/-- C7 amended: tick-driven updates emit `state_changed` exactly when the
state changes, but `stop()` and `emergency_stop()` emit it unconditionally
(even when the state is unchanged), `reset()` emits it exactly when it is
effective, and `start()` (when not emergency-stopped) emits it
unconditionally with the recomputed state. -/
theorem C7_amended_emission_discipline (cfg : Config) (noise noise2 : ℚ)
    (s : Simulator) :
    ((update_temperature cfg noise noise2 s).2.any Event.isStateChanged =
        true ↔ (update_temperature cfg noise noise2 s).1.state ≠ s.state) ∧
    (stop s).2 = [Event.state_changed SystemState.COOLING] ∧
    (emergency_stop s).2 =
      [Event.state_changed SystemState.EMERGENCY_STOP] ∧
    ((reset s).2.any Event.isStateChanged = true ↔
      s.state = SystemState.EMERGENCY_STOP) ∧
    (s.state ≠ SystemState.EMERGENCY_STOP →
      (start cfg s).2 = [Event.state_changed (start cfg s).1.state]) := by
  refine ⟨?_, rfl, rfl, ?_, ?_⟩
  · cases hs : s.state
    case IDLE =>
      constructor
      · intro hx
        exact absurd hx (by simp [update_temperature, hs, Event.isStateChanged])
      · intro hx
        exact absurd (by simp only [update_temperature, hs]) hx
    case HEATING =>
      by_cases hd : s.target_temp - s.current_temp > 1/2
      · rw [update_temperature_heating_far cfg noise noise2 s hs hd]
        simp [Event.isStateChanged, hs]
      · rw [update_temperature_heating_near cfg noise noise2 s hs hd]
        simp [Event.isStateChanged, hs]
    case COOLING =>
      by_cases hd : s.current_temp > cfg.AMBIENT_TEMP + 1/2
      · rw [update_temperature_cooling_hot cfg noise noise2 s hs hd]
        simp [Event.isStateChanged, hs]
      · rw [update_temperature_cooling_snap cfg noise noise2 s hs hd]
        simp [Event.isStateChanged, hs]
    case MAINTAINING =>
      rw [update_temperature_maintaining cfg noise noise2 s hs]
      simp [Event.isStateChanged, hs]
    case EMERGENCY_STOP =>
      constructor
      · intro hx
        exact absurd hx (by simp [update_temperature, hs, Event.isStateChanged])
      · intro hx
        exact absurd (by simp only [update_temperature, hs]) hx
  · by_cases hr : s.state = SystemState.EMERGENCY_STOP
    · simp [reset, hr, Event.isStateChanged]
    · simp [reset, hr, Event.isStateChanged]
  · intro h
    simp only [start]
    rw [if_neg h]
    simp [update_state]

/-- Witness for C7's amended theorem: a concrete idle simulator, on
`start()`, emits the recomputed state even though nothing changed. -/
theorem C7_amended_emission_discipline_witness :
    (start defaultConfig ⟨30, 100, SystemState.IDLE, false, false⟩).2 =
      [Event.state_changed
        (start defaultConfig
          ⟨30, 100, SystemState.IDLE, false, false⟩).1.state] :=
  (C7_amended_emission_discipline defaultConfig 0 0
    ⟨30, 100, SystemState.IDLE, false, false⟩).2.2.2.2 (by simp)

/-- C3 amended: under the default configuration (`ambient = 25`,
`coolingRate = 1`, tick 100 ms), `stop()` forces the state to Cooling
unconditionally without touching the temperature or the timer; while
`current_temp > 25.5` each tick subtracts `coolingRate * dt + noise =
0.1 + noise`, which never increases the temperature and strictly decreases
it whenever `noise > -0.1` (at the boundary draw `noise = -0.1` the tick
leaves the temperature unchanged); once at or below `25.5` the tick snaps
`current_temp` to exactly `25`, transitions to Idle, stops the timer, and
no further tick fires. -/
theorem C3_amended_stop_cooling_rampdown (s : Simulator) (noise noise2 : ℚ)
    (hn : noiseOk noise) :
    ((stop s).1.state = SystemState.COOLING ∧
     (stop s).1.is_running = false ∧
     (stop s).1.timer_active = s.timer_active ∧
     (stop s).1.current_temp = s.current_temp) ∧
    (s.state = SystemState.COOLING → s.timer_active = true →
     s.current_temp > 25 + 1/2 → s.current_temp ≤ 400 →
     (tick defaultConfig noise noise2 s).1.current_temp =
        s.current_temp - (1/10 + noise) ∧
     (tick defaultConfig noise noise2 s).1.current_temp ≤ s.current_temp ∧
     (noise > -(1/10) →
       (tick defaultConfig noise noise2 s).1.current_temp <
         s.current_temp) ∧
     (tick defaultConfig noise noise2 s).1.state = SystemState.COOLING) ∧
    (s.state = SystemState.COOLING → s.timer_active = true →
     ¬ s.current_temp > 25 + 1/2 →
     (tick defaultConfig noise noise2 s).1.current_temp = 25 ∧
     (tick defaultConfig noise noise2 s).1.state = SystemState.IDLE ∧
     (tick defaultConfig noise noise2 s).1.timer_active = false ∧
     ∀ ns, ticks defaultConfig ns (tick defaultConfig noise noise2 s).1 =
       (tick defaultConfig noise noise2 s).1) := by
  obtain ⟨hn1, hn2⟩ := hn
  refine ⟨⟨rfl, rfl, rfl, rfl⟩, ?_, ?_⟩
  · intro hs hta hgt hle
    have hd : s.current_temp > defaultConfig.AMBIENT_TEMP + 1/2 := hgt
    have htick : (tick defaultConfig noise noise2 s).1.current_temp =
        s.current_temp - (1/10 + noise) := by
      simp only [tick, hta, if_true]
      rw [update_temperature_cooling_hot defaultConfig noise noise2 s hs hd]
      have e1 : defaultConfig.COOLING_RATE *
          (defaultConfig.TEMP_UPDATE_INTERVAL_MS / 1000) + noise =
          1/10 + noise := by
        norm_num [defaultConfig]
      have e2 : defaultConfig.AMBIENT_TEMP - 1 = (24 : ℚ) := by
        norm_num [defaultConfig]
      have e3 : defaultConfig.MAX_TEMP = (400 : ℚ) := rfl
      simp only [e1, e2, e3]
      rw [min_eq_left (by linarith), max_eq_right (by linarith)]
    refine ⟨htick, by rw [htick]; linarith, ?_, ?_⟩
    · intro hpos
      rw [htick]
      linarith
    · simp only [tick, hta, if_true]
      rw [update_temperature_cooling_hot defaultConfig noise noise2 s hs hd]
      exact hs
  · intro hs hta hgt
    have hd : ¬ s.current_temp > defaultConfig.AMBIENT_TEMP + 1/2 := hgt
    have htick : tick defaultConfig noise noise2 s =
        ({ s with state := SystemState.IDLE, timer_active := false,
                  current_temp := 25 },
         [Event.state_changed SystemState.IDLE,
          Event.temperature_changed 25]) := by
      simp only [tick, hta, if_true]
      rw [update_temperature_cooling_snap defaultConfig noise noise2 s hs hd]
      norm_num [defaultConfig]
    rw [htick]
    refine ⟨rfl, rfl, rfl, ?_⟩
    intro ns
    exact ticks_timer_inactive defaultConfig ns _ rfl

/-- Witness for C3's amended theorem at a concrete cooling simulator at 200
degrees with noise 0: the tick drops the temperature to 199.9. -/
theorem C3_amended_stop_cooling_rampdown_witness :
    (tick defaultConfig 0 0
        ⟨200, 100, SystemState.COOLING, false, true⟩).1.current_temp =
      200 - (1/10 + 0) ∧
    (tick defaultConfig 0 0
        ⟨200, 100, SystemState.COOLING, false, true⟩).1.current_temp <
      200 := by
  have h := (C3_amended_stop_cooling_rampdown
    ⟨200, 100, SystemState.COOLING, false, true⟩ 0 0
    (by norm_num [noiseOk])).2.1 rfl rfl (by norm_num) (by norm_num)
  exact ⟨h.1, h.2.2.1 (by norm_num)⟩

/-- Splitting a tick sequence. -/
theorem ticks_append (cfg : Config) (a b : List (ℚ × ℚ)) :
    ∀ s, ticks cfg (a ++ b) s = ticks cfg b (ticks cfg a s) := by
  induction a with
  | nil => intro s; rfl
  | cons n ns ih =>
    intro s
    simp only [List.cons_append, ticks]
    exact ih _

/-- The MAINTAINING state is absorbing under ticks: its branch only moves
the temperature. -/
theorem maintaining_ticks (cfg : Config) (ns : List (ℚ × ℚ)) :
    ∀ s : Simulator, s.state = SystemState.MAINTAINING →
    (ticks cfg ns s).state = SystemState.MAINTAINING := by
  induction ns with
  | nil => intro s h; exact h
  | cons p ps ih =>
    intro s h
    simp only [ticks]
    apply ih
    cases ht : s.timer_active
    · simp [tick, ht, h]
    · simp only [tick, ht, if_true]
      rw [update_temperature_maintaining cfg p.1 p.2 s h]
      exact h

/-- A heating tick under the default configuration, while the gap exceeds
0.5 and with an in-range noise draw: the temperature moves up by exactly
`heatingRate * dt + noise = 0.2 + noise` (the clamp is inactive). -/
theorem heating_tick_far_default (noise noise2 : ℚ) (s : Simulator)
    (hs : s.state = SystemState.HEATING) (hta : s.timer_active = true)
    (hn : noiseOk noise)
    (hlo : 24 ≤ s.current_temp) (hhi : s.target_temp ≤ 400)
    (hgap : s.target_temp - s.current_temp > 1/2) :
    (tick defaultConfig noise noise2 s).1 =
      { s with current_temp := s.current_temp + (1/5 + noise) } := by
  obtain ⟨hn1, hn2⟩ := hn
  simp only [tick, hta, if_true]
  rw [update_temperature_heating_far defaultConfig noise noise2 s hs hgap]
  have e1 : s.current_temp + defaultConfig.HEATING_RATE *
      (defaultConfig.TEMP_UPDATE_INTERVAL_MS / 1000) + noise =
      s.current_temp + (1/5 + noise) := by
    rw [show defaultConfig.HEATING_RATE *
        (defaultConfig.TEMP_UPDATE_INTERVAL_MS / 1000) = (1/5 : ℚ) by
      norm_num [defaultConfig]]
    ring
  have e2 : defaultConfig.AMBIENT_TEMP - 1 = (24 : ℚ) := by
    norm_num [defaultConfig]
  have e3 : defaultConfig.MAX_TEMP = (400 : ℚ) := rfl
  simp only [e1, e2, e3]
  rw [min_eq_left (by linarith), max_eq_right (by linarith)]
  rw [hta]

/-- A heating tick under the default configuration once the gap is at most
0.5 and the temperature is in clamp range: transition to MAINTAINING with
the temperature unchanged. -/
theorem heating_tick_near_default (noise noise2 : ℚ) (s : Simulator)
    (hs : s.state = SystemState.HEATING) (hta : s.timer_active = true)
    (hlo : 24 ≤ s.current_temp) (hcap : s.current_temp ≤ 400)
    (hgap : ¬ s.target_temp - s.current_temp > 1/2) :
    (tick defaultConfig noise noise2 s).1 =
      { s with state := SystemState.MAINTAINING } := by
  simp only [tick, hta, if_true]
  rw [update_temperature_heating_near defaultConfig noise noise2 s hs hgap]
  have e2 : defaultConfig.AMBIENT_TEMP - 1 = (24 : ℚ) := by
    norm_num [defaultConfig]
  have e3 : defaultConfig.MAX_TEMP = (400 : ℚ) := rfl
  simp only [e2, e3]
  rw [min_eq_left hcap, max_eq_right hlo]
  rw [hta]

/-- One tick preserves the running invariant (state Heating or Maintaining,
timer active, temperature inside the clamp range, target untouched). -/
theorem tick_preserves_run (p : ℚ × ℚ) (s : Simulator)
    (h1 : s.state = SystemState.HEATING ∨
      s.state = SystemState.MAINTAINING)
    (h2 : s.timer_active = true) :
    ((tick defaultConfig p.1 p.2 s).1.state = SystemState.HEATING ∨
     (tick defaultConfig p.1 p.2 s).1.state = SystemState.MAINTAINING) ∧
    (tick defaultConfig p.1 p.2 s).1.timer_active = true ∧
    24 ≤ (tick defaultConfig p.1 p.2 s).1.current_temp ∧
    (tick defaultConfig p.1 p.2 s).1.current_temp ≤ 400 ∧
    (tick defaultConfig p.1 p.2 s).1.target_temp = s.target_temp := by
  have e2 : defaultConfig.AMBIENT_TEMP - 1 = (24 : ℚ) := by
    norm_num [defaultConfig]
  have e3 : defaultConfig.MAX_TEMP = (400 : ℚ) := rfl
  simp only [tick, h2, if_true]
  rcases h1 with hs | hs
  · by_cases hd : s.target_temp - s.current_temp > 1/2
    · rw [update_temperature_heating_far defaultConfig p.1 p.2 s hs hd]
      refine ⟨Or.inl hs, h2, ?_, ?_, rfl⟩
      · simp only [e2, e3]
        exact le_max_left _ _
      · simp only [e2, e3]
        exact max_le (by norm_num) (min_le_right _ _)
    · rw [update_temperature_heating_near defaultConfig p.1 p.2 s hs hd]
      refine ⟨Or.inr rfl, h2, ?_, ?_, rfl⟩
      · simp only [e2, e3]
        exact le_max_left _ _
      · simp only [e2, e3]
        exact max_le (by norm_num) (min_le_right _ _)
  · rw [update_temperature_maintaining defaultConfig p.1 p.2 s hs]
    refine ⟨Or.inr hs, h2, ?_, ?_, rfl⟩
    · simp only [e2, e3]
      exact le_max_left _ _
    · simp only [e2, e3]
      exact max_le (by norm_num) (min_le_right _ _)

/-- The running invariant is preserved by any tick sequence. -/
theorem run_invariant (ns : List (ℚ × ℚ)) : ∀ s : Simulator,
    (s.state = SystemState.HEATING ∨
      s.state = SystemState.MAINTAINING) →
    s.timer_active = true → 24 ≤ s.current_temp → s.current_temp ≤ 400 →
    ((ticks defaultConfig ns s).state = SystemState.HEATING ∨
     (ticks defaultConfig ns s).state = SystemState.MAINTAINING) ∧
    (ticks defaultConfig ns s).timer_active = true ∧
    24 ≤ (ticks defaultConfig ns s).current_temp ∧
    (ticks defaultConfig ns s).current_temp ≤ 400 ∧
    (ticks defaultConfig ns s).target_temp = s.target_temp := by
  induction ns with
  | nil => intro s h1 h2 h3 h4; exact ⟨h1, h2, h3, h4, rfl⟩
  | cons p ps ih =>
    intro s h1 h2 h3 h4
    obtain ⟨k1, k2, k3, k4, k5⟩ := tick_preserves_run p s h1 h2
    simp only [ticks]
    obtain ⟨m1, m2, m3, m4, m5⟩ := ih _ k1 k2 k3 k4
    exact ⟨m1, m2, m3, m4, by rw [m5, k5]⟩

/-- From a Heating state whose gap fits in `0.5 + k/10`, any sequence of at
least `k + 1` in-range-noise ticks ends in MAINTAINING: every far tick
closes the gap by at least 0.1 and the first near tick transitions. -/
theorem heating_reaches_maintaining (k : ℕ) :
    ∀ (s : Simulator) (ns : List (ℚ × ℚ)),
    s.state = SystemState.HEATING → s.timer_active = true →
    24 ≤ s.current_temp → s.current_temp ≤ 400 → s.target_temp ≤ 400 →
    (∀ p ∈ ns, noiseOk p.1) →
    s.target_temp - s.current_temp ≤ 1/2 + (k : ℚ)/10 →
    k + 1 ≤ ns.length →
    (ticks defaultConfig ns s).state = SystemState.MAINTAINING := by
  induction k with
  | zero =>
    intro s ns hs hta hlo hcap hhi hvn hgap hlen
    cases ns with
    | nil => simp at hlen
    | cons p ps =>
      simp only [ticks]
      have hgap2 : s.target_temp - s.current_temp ≤ 1/2 := by
        push_cast at hgap
        linarith
      rw [heating_tick_near_default p.1 p.2 s hs hta hlo hcap
        (not_lt.mpr hgap2)]
      exact maintaining_ticks defaultConfig ps _ rfl
  | succ k ih =>
    intro s ns hs hta hlo hcap hhi hvn hgap hlen
    cases ns with
    | nil => simp at hlen
    | cons p ps =>
      simp only [ticks]
      by_cases hd : s.target_temp - s.current_temp > 1/2
      · have hp : noiseOk p.1 := hvn p (by simp)
        obtain ⟨hp1, hp2⟩ := hp
        rw [heating_tick_far_default p.1 p.2 s hs hta ⟨hp1, hp2⟩ hlo hhi hd]
        push_cast at hgap
        refine ih _ ps hs hta ?_ ?_ hhi ?_ ?_ ?_
        · show (24:ℚ) ≤ s.current_temp + (1/5 + p.1)
          linarith
        · show s.current_temp + (1/5 + p.1) ≤ (400:ℚ)
          linarith
        · intro q hq
          exact hvn q (by simp [hq])
        · show s.target_temp - (s.current_temp + (1/5 + p.1)) ≤
            1/2 + (k : ℚ)/10
          linarith
        · have : k + 1 + 1 ≤ ps.length + 1 := by
            simpa using hlen
          omega
      · rw [heating_tick_near_default p.1 p.2 s hs hta hlo hcap hd]
        exact maintaining_ticks defaultConfig ps _ rfl

/-- C4: starting from Idle with `targetTemp > currentTemp` (inside the
clamp range of the default configuration), `start()` begins running with
state Heating (or Maintaining at once when the gap is already below 0.5);
while the state is Heating and the gap exceeds 0.5, each tick with an
in-range noise draw adds exactly `heatingRate * dt + noise = 0.2 + noise`
and strictly increases the temperature; after at most
`ceil(10 * gap) + 1` ticks the state is Maintaining; and Maintaining is
absorbing under all further ticks (absent external stop/emergencyStop). -/
theorem C4_heating_reaches_maintaining (s : Simulator)
    (h1 : s.state = SystemState.IDLE)
    (h2 : s.current_temp < s.target_temp)
    (h3 : 24 ≤ s.current_temp)
    (h4 : s.target_temp ≤ 400) :
    ((start defaultConfig s).1.state = SystemState.HEATING ∨
     (start defaultConfig s).1.state = SystemState.MAINTAINING) ∧
    (start defaultConfig s).1.is_running = true ∧
    (start defaultConfig s).1.timer_active = true ∧
    (start defaultConfig s).1.current_temp = s.current_temp ∧
    (start defaultConfig s).1.target_temp = s.target_temp ∧
    (∀ (ns : List (ℚ × ℚ)) (p : ℚ × ℚ),
      (∀ q ∈ ns, noiseOk q.1) → noiseOk p.1 →
      (ticks defaultConfig ns (start defaultConfig s).1).state =
        SystemState.HEATING →
      (ticks defaultConfig ns (start defaultConfig s).1).target_temp -
        (ticks defaultConfig ns (start defaultConfig s).1).current_temp >
        1/2 →
      (tick defaultConfig p.1 p.2
          (ticks defaultConfig ns (start defaultConfig s).1)).1.current_temp
        = (ticks defaultConfig ns
            (start defaultConfig s).1).current_temp + (1/5 + p.1) ∧
      (tick defaultConfig p.1 p.2
          (ticks defaultConfig ns (start defaultConfig s).1)).1.current_temp
        > (ticks defaultConfig ns
            (start defaultConfig s).1).current_temp) ∧
    (∀ ns : List (ℚ × ℚ), (∀ q ∈ ns, noiseOk q.1) →
      (⌈10 * (s.target_temp - s.current_temp)⌉).toNat + 1 ≤ ns.length →
      (ticks defaultConfig ns (start defaultConfig s).1).state =
        SystemState.MAINTAINING) ∧
    (∀ ns ms : List (ℚ × ℚ),
      (ticks defaultConfig ns (start defaultConfig s).1).state =
        SystemState.MAINTAINING →
      (ticks defaultConfig (ns ++ ms) (start defaultConfig s).1).state =
        SystemState.MAINTAINING) := by
  have hne : ¬ s.state = SystemState.EMERGENCY_STOP := by simp [h1]
  have hs1 : (start defaultConfig s).1 =
      { s with is_running := true, timer_active := true,
               state := (if |s.current_temp - s.target_temp| < 1/2
                 then SystemState.MAINTAINING else SystemState.HEATING) } := by
    simp only [start]
    rw [if_neg hne]
    simp only [update_state]
    by_cases hm : |s.current_temp - s.target_temp| < 1/2
    · have hm2 : |s.current_temp - s.target_temp| < (2:ℚ)⁻¹ := by
        rw [show ((2:ℚ)⁻¹) = 1/2 by norm_num]
        exact hm
      rw [if_pos hm]
      simp [hm2]
    · have hm2 : ¬ |s.current_temp - s.target_temp| < (2:ℚ)⁻¹ := by
        rw [show ((2:ℚ)⁻¹) = 1/2 by norm_num]
        exact hm
      rw [if_neg hm]
      rw [if_pos h2]
      simp [hm2]
  have hor : (start defaultConfig s).1.state = SystemState.HEATING ∨
      (start defaultConfig s).1.state = SystemState.MAINTAINING := by
    rw [hs1]
    by_cases hm : |s.current_temp - s.target_temp| < 1/2
    · right
      show (if |s.current_temp - s.target_temp| < 1/2
        then SystemState.MAINTAINING else SystemState.HEATING) =
        SystemState.MAINTAINING
      rw [if_pos hm]
    · left
      show (if |s.current_temp - s.target_temp| < 1/2
        then SystemState.MAINTAINING else SystemState.HEATING) =
        SystemState.HEATING
      rw [if_neg hm]
  have hrun : (start defaultConfig s).1.is_running = true := by rw [hs1]
  have htim : (start defaultConfig s).1.timer_active = true := by rw [hs1]
  have hcur : (start defaultConfig s).1.current_temp = s.current_temp := by
    rw [hs1]
  have htar : (start defaultConfig s).1.target_temp = s.target_temp := by
    rw [hs1]
  refine ⟨hor, hrun, htim, hcur, htar, ?_, ?_, ?_⟩
  · intro ns p hvn hp hH hgap
    obtain ⟨i1, i2, i3, i4, i5⟩ := run_invariant ns (start defaultConfig s).1
      hor htim (by rw [hcur]; exact h3) (by rw [hcur]; linarith)
    have hhiu : (ticks defaultConfig ns
        (start defaultConfig s).1).target_temp ≤ 400 := by
      rw [i5, htar]
      exact h4
    have hstep := heating_tick_far_default p.1 p.2
      (ticks defaultConfig ns (start defaultConfig s).1) hH i2 hp i3 hhiu hgap
    obtain ⟨hp1, hp2⟩ := hp
    constructor
    · rw [hstep]
    · rw [hstep]
      show (ticks defaultConfig ns
          (start defaultConfig s).1).current_temp + (1/5 + p.1) >
        (ticks defaultConfig ns (start defaultConfig s).1).current_temp
      linarith
  · intro ns hvn hlen
    by_cases hm : |s.current_temp - s.target_temp| < 1/2
    · apply maintaining_ticks
      rw [hs1]
      show (if |s.current_temp - s.target_temp| < 1/2
        then SystemState.MAINTAINING else SystemState.HEATING) =
        SystemState.MAINTAINING
      rw [if_pos hm]
    · have hH : (start defaultConfig s).1.state = SystemState.HEATING := by
        rw [hs1]
        show (if |s.current_temp - s.target_temp| < 1/2
          then SystemState.MAINTAINING else SystemState.HEATING) =
          SystemState.HEATING
        rw [if_neg hm]
      have hpos : (0:ℚ) < 10 * (s.target_temp - s.current_temp) := by
        linarith
      have hcnn : 0 ≤ ⌈10 * (s.target_temp - s.current_temp)⌉ :=
        Int.ceil_nonneg (le_of_lt hpos)
      have hle2 : 10 * (s.target_temp - s.current_temp) ≤
          ((⌈10 * (s.target_temp - s.current_temp)⌉.toNat : ℕ) : ℚ) := by
        have h5 := Int.le_ceil (10 * (s.target_temp - s.current_temp))
        have h6 : ((⌈10 * (s.target_temp - s.current_temp)⌉ : ℤ) : ℚ) ≤
            ((⌈10 * (s.target_temp - s.current_temp)⌉.toNat : ℕ) : ℚ) := by
          exact_mod_cast Int.self_le_toNat _
        linarith
      refine heating_reaches_maintaining
        (⌈10 * (s.target_temp - s.current_temp)⌉.toNat)
        (start defaultConfig s).1 ns hH htim
        (by rw [hcur]; exact h3) (by rw [hcur]; linarith)
        (by rw [htar]; exact h4) hvn ?_ hlen
      rw [htar, hcur]
      linarith
  · intro ns ms hM
    rw [ticks_append]
    exact maintaining_ticks defaultConfig ms _ hM

/-- Witness for C4: the concrete simulator at 25 degrees targeting 27,
started and ticked 21 times with zero noise, ends in Maintaining. -/
theorem C4_heating_reaches_maintaining_witness :
    (ticks defaultConfig (List.replicate 21 ((0:ℚ), (0:ℚ)))
        (start defaultConfig
          ⟨25, 27, SystemState.IDLE, false, false⟩).1).state =
      SystemState.MAINTAINING := by
  have h := C4_heating_reaches_maintaining
    ⟨25, 27, SystemState.IDLE, false, false⟩
    rfl (by norm_num) (by norm_num) (by norm_num)
  refine h.2.2.2.2.2.2.1 (List.replicate 21 ((0:ℚ), (0:ℚ))) ?_ ?_
  · intro q hq
    rw [List.eq_of_mem_replicate hq]
    constructor
    · norm_num
    · norm_num
  · rw [List.length_replicate]
    show (⌈(10:ℚ) * (27 - 25)⌉).toNat + 1 ≤ 21
    rw [show (10:ℚ) * (27 - 25) = ((20:ℤ) : ℚ) by norm_num]
    rw [Int.ceil_intCast]
    decide
